/-
  Verification of the break-even calculator's core computation engine.

  Shallow embedding of the quantitative modules of the repository:
  unit-economics and ROAS thresholds, the reverse solver (validation, goal
  classification, scenario generation), the calibrated volume model with
  golden-section optimal-budget search, the OLS calibration engine, and the
  12-month ROI projection simulator.

  Modelling conventions:
  * JS `number` is modelled as `ℝ` where the code can only produce finite
    values, and as `EReal` where the code stores the `Infinity` sentinel
    (ROAS thresholds and values derived from them).  `⊤ : EReal` is JS
    `Infinity`.
  * JS `NaN` has no counterpart; on the (unreachable in validated flows)
    paths where JS would produce `NaN` (`0 * Infinity`) or `±Infinity`
    (division by exact zero) the model produces `0`, noted at each site.
  * Optional parameters / record fields are `Option`; `undefined` is `none`.
  * The industry-defaults table is an external collaborator of the core and
    is passed as an explicit function argument.
  * Presentation-only string fields (labels, reasoning texts, status
    messages) built with locale formatting are omitted from the embedded
    records; validation error messages, which the code builds structurally,
    are modelled by an inductive error type carrying the same data.
-/
import Mathlib

noncomputable section

/-! ## Shared data model (src/lib/types.ts) -/

/-- Industry category keys of the defaults table. -/
inductive Industry
  | ecommerce | fashion | beauty | electronics | homeGarden | saas | other
deriving DecidableEq

/-- Per-industry default parameters (external collaborator). -/
structure IndustryDefaults where
  margin : ℝ
  returnRate : ℝ
  paymentFee : ℝ
  ltvMultiplier : ℝ
  shippingCost : ℝ

/-- Shipping cost entry mode. -/
inductive ShippingCostType
  | fixed | percent
deriving DecidableEq

/-- Business parameters of the forward calculator; optional fields fall
back to industry defaults. -/
structure CalculatorInput where
  aov : ℝ
  industry : Industry
  productCost : Option ℝ
  grossMargin : Option ℝ
  returnRate : Option ℝ
  shippingCost : Option ℝ
  shippingCostPercent : Option ℝ
  shippingCostType : Option ShippingCostType
  paymentFee : Option ℝ
  ltvMultiplier : Option ℝ
  desiredProfitMargin : Option ℝ
  ltvMode : Option Bool

/-- Goal classification of the reverse solver. -/
inductive GoalStatus
  | achievable | tight | impossible
deriving DecidableEq

/-! ## Unit economics engine (src/lib/unit-economics.ts) -/

/-- Per-order unit economics derived from business parameters. -/
structure UnitEconomics where
  aov : ℝ
  productCost : ℝ
  productCostEffective : ℝ
  shippingCost : ℝ
  paymentFee : ℝ
  contributionBeforeAds : ℝ
  contributionRate : ℝ

/-- `computeUnitEconomics` from src/lib/unit-economics.ts: resolves product
cost (explicit cost, else gross-margin percent, else industry default),
applies the return rate multiplicatively to cost, resolves shipping and
payment fee, and derives the contribution before ads. -/
def computeUnitEconomics (industryDefaults : Industry → IndustryDefaults)
    (input : CalculatorInput) : UnitEconomics :=
  let defaults := industryDefaults input.industry
  let aov := input.aov
  let productCost : ℝ :=
    match input.productCost with
    | some pc => pc
    | none =>
      match input.grossMargin with
      | some gm => aov * (1 - gm / 100)
      | none => aov * (1 - defaults.margin)
  let returnRate : ℝ :=
    match input.returnRate with
    | some r => r / 100
    | none => defaults.returnRate
  let productCostEffective := productCost * (1 + returnRate)
  let shippingCost : ℝ :=
    if input.shippingCostType = some ShippingCostType.percent ∧
        input.shippingCostPercent.isSome then
      aov * (input.shippingCostPercent.getD 0 / 100)
    else
      match input.shippingCost with
      | some s => s
      | none => defaults.shippingCost
  let paymentFeeRate : ℝ :=
    match input.paymentFee with
    | some p => p / 100
    | none => defaults.paymentFee
  let paymentFee := aov * paymentFeeRate
  let contributionBeforeAds :=
    aov - (productCostEffective + shippingCost + paymentFee)
  let contributionRate := if aov > 0 then contributionBeforeAds / aov else 0
  ⟨aov, productCost, productCostEffective, shippingCost, paymentFee,
    contributionBeforeAds, contributionRate⟩

/-- ROAS/COS thresholds; the ROAS fields carry the JS `Infinity` sentinel
as `⊤ : EReal`. -/
structure RoasThresholds where
  breakEvenRoas : EReal
  targetRoas : EReal
  breakEvenCos : ℝ
  targetCos : ℝ
  targetImpossible : Bool
  maxAdCost : ℝ
  maxAdCostTarget : ℝ

/-- JS `isFinite(roas) ? (1 / roas) * 100 : 0`.  When `roas` is finite but
exactly `0` the code would store `Infinity`; the model returns `0` there
(real-division convention), a path unreachable from validated inputs. -/
def cosOf (roas : EReal) : ℝ :=
  if roas = ⊤ ∨ roas = ⊥ then 0 else (1 / roas.toReal) * 100

/-- `computeRoasThresholds` from src/lib/unit-economics.ts.  The JS
condition `ltvMode && ltvMultiplier` is truthy exactly when `ltvMode` is
`true` and the multiplier is present and nonzero. -/
def computeRoasThresholds (ue : UnitEconomics) (aov : ℝ)
    (desiredMarginOfAov : ℝ) (ltvMultiplier : Option ℝ)
    (ltvMode : Option Bool) : RoasThresholds :=
  let effectiveAov : ℝ :=
    match ltvMode, ltvMultiplier with
    | some true, some k => if k = 0 then aov else aov * k
    | _, _ => aov
  let breakEvenRoas : EReal :=
    if ue.contributionBeforeAds > 0 then
      ((effectiveAov / ue.contributionBeforeAds : ℝ) : EReal)
    else ⊤
  let maxAdCostTarget := ue.contributionBeforeAds - effectiveAov * desiredMarginOfAov
  let targetRoas : EReal :=
    if maxAdCostTarget > 0 then ((effectiveAov / maxAdCostTarget : ℝ) : EReal)
    else ⊤
  ⟨breakEvenRoas, targetRoas, cosOf breakEvenRoas, cosOf targetRoas,
    decide (maxAdCostTarget ≤ 0), ue.contributionBeforeAds, maxAdCostTarget⟩

/-! ## Goal classification (src/lib/calculations.ts, determineStatus) -/

/-- `determineStatus` from src/lib/calculations.ts.  Arguments are JS
numbers that may hold the `Infinity` sentinel, hence `EReal`. -/
def determineStatus (requiredROAS breakEvenROAS targetROAS : EReal) :
    GoalStatus :=
  if requiredROAS < breakEvenROAS then GoalStatus.impossible
  else if requiredROAS ≤ targetROAS then GoalStatus.achievable
  else GoalStatus.tight

/-! ## Forward calculator (src/lib/calculations.ts, calculateBreakEven) -/

/-- Source tag of a resolved assumption. -/
inductive AssumptionSource
  | user | industry_default
deriving DecidableEq

/-- One resolved parameter assumption (the `displayValue` presentation
field is omitted). -/
structure Assumption where
  parameter : String
  value : ℝ
  source : AssumptionSource

/-- Confidence grade derived from the number of user-supplied inputs. -/
inductive ConfidenceLevel
  | low | medium | high
deriving DecidableEq

/-- Output record of the forward calculator (legacy model of
src/lib/calculations.ts). -/
structure CalculatorOutput where
  breakEvenRoas : EReal
  targetRoas : EReal
  breakEvenCos : ℝ
  targetCos : ℝ
  desiredProfitMargin : ℝ
  maxCpa : ℝ
  maxCpaWithLtv : ℝ
  breakEvenRoasWithLtv : EReal
  confidenceLevel : ConfidenceLevel
  assumptions : List Assumption
  netProfitPerOrder : ℝ

/-- `calculateBreakEven` from src/lib/calculations.ts (legacy revenue-side
return model).  When `desiredProfitMargin = 100` the JS code divides by
zero and stores `Infinity`; the model stores `0` there (real-division
convention), a value no claim depends on. -/
def calculateBreakEven (industryDefaults : Industry → IndustryDefaults)
    (input : CalculatorInput) : CalculatorOutput :=
  let defaults := industryDefaults input.industry
  let margin : ℝ :=
    match input.grossMargin with
    | some gm => gm / 100
    | none =>
      match input.productCost with
      | some pc => (input.aov - pc) / input.aov
      | none => defaults.margin
  let marginSource : AssumptionSource :=
    match input.grossMargin, input.productCost with
    | none, none => AssumptionSource.industry_default
    | _, _ => AssumptionSource.user
  let returnRate : ℝ :=
    match input.returnRate with
    | some r => r / 100
    | none => defaults.returnRate
  let shippingCost : ℝ :=
    if input.shippingCostType = some ShippingCostType.percent ∧
        input.shippingCostPercent.isSome then
      input.aov * (input.shippingCostPercent.getD 0 / 100)
    else
      match input.shippingCost with
      | some s => s
      | none => defaults.shippingCost
  let shippingIsUser : Bool :=
    (input.shippingCostType = some ShippingCostType.percent ∧
      input.shippingCostPercent.isSome : Prop) ∨ input.shippingCost.isSome
  let paymentFee : ℝ :=
    match input.paymentFee with
    | some p => p / 100
    | none => defaults.paymentFee
  let ltvMultiplier : ℝ := input.ltvMultiplier.getD defaults.ltvMultiplier
  let assumptions : List Assumption :=
    [⟨"Bruttomarginal", margin, marginSource⟩,
     ⟨"Returgrad", returnRate,
       if input.returnRate.isSome then AssumptionSource.user
       else AssumptionSource.industry_default⟩,
     ⟨"Fraktkostnad", shippingCost,
       if shippingIsUser then AssumptionSource.user
       else AssumptionSource.industry_default⟩,
     ⟨"Payment fee", paymentFee,
       if input.paymentFee.isSome then AssumptionSource.user
       else AssumptionSource.industry_default⟩,
     ⟨"LTV-multiplikator", ltvMultiplier,
       if input.ltvMultiplier.isSome then AssumptionSource.user
       else AssumptionSource.industry_default⟩]
  let effectiveRevenue := input.aov * (1 - returnRate)
  let paymentCost := input.aov * paymentFee
  let netProfitPerOrder := effectiveRevenue * margin - shippingCost - paymentCost
  let breakEvenRoas : EReal :=
    if netProfitPerOrder > 0 then ((input.aov / netProfitPerOrder : ℝ) : EReal)
    else ⊤
  let maxCpa := netProfitPerOrder
  let maxCpaWithLtv := netProfitPerOrder * ltvMultiplier
  let desiredProfitMargin : ℝ := input.desiredProfitMargin.getD 20
  let profitRetention := 1 - desiredProfitMargin / 100
  let targetRoas : EReal :=
    if netProfitPerOrder > 0 then
      ((input.aov / (netProfitPerOrder * profitRetention) : ℝ) : EReal)
    else ⊤
  let breakEvenRoasWithLtv : EReal :=
    if maxCpaWithLtv > 0 then ((input.aov / maxCpaWithLtv : ℝ) : EReal)
    else ⊤
  let userInputCount :=
    (assumptions.filter fun a => a.source = AssumptionSource.user).length
  let confidenceLevel :=
    if 4 ≤ userInputCount then ConfidenceLevel.high
    else if 2 ≤ userInputCount then ConfidenceLevel.medium
    else ConfidenceLevel.low
  ⟨breakEvenRoas, targetRoas, cosOf breakEvenRoas, cosOf targetRoas,
    desiredProfitMargin, maxCpa, maxCpaWithLtv, breakEvenRoasWithLtv,
    confidenceLevel, assumptions, netProfitPerOrder⟩

/-! ## Reverse solver data model (src/lib/types.ts) -/

/-- Reverse-calculator inputs. -/
structure ReverseInputs where
  revenueTarget : ℝ
  mediaBudget : ℝ
  profitMarginGoal : ℝ
  economics : CalculatorInput
  minRevenuePercent : Option ℝ

/-- One reverse-calculator scenario.  `requiredROAS` can hold the
`Infinity` sentinel; the presentation fields `label` and `reasoning`
(locale-formatted strings) are omitted. -/
structure ReverseScenario where
  name : String
  recommendedBudget : ℝ
  expectedRevenue : ℝ
  requiredROAS : EReal
  requiredCOS : ℝ
  achievedProfitMargin : ℝ
  budgetDelta : ℝ
  budgetDeltaPercent : ℝ
  revenueDelta : ℝ
  revenueDeltaPercent : ℝ
  profitDelta : ℝ
  isRecommended : Bool

/-- Scenario set of the current model (src/unnamed/part_004, matching
src/lib/types.ts). -/
structure ScenarioSet where
  budgetForTarget : ReverseScenario
  maxRevenueGivenBudget : ReverseScenario
  maxProfitGivenMinRevenue : ReverseScenario

/-! ## Legacy scenario generation (src/lib/scenarios.ts) -/

namespace Legacy

/-- Legacy scenario set keyed `balance` / `maxRevenue` / `maxProfit`. -/
structure ScenarioSet where
  balance : ReverseScenario
  maxRevenue : ReverseScenario
  maxProfit : ReverseScenario

/-- JS division of a finite number by a possibly-infinite one:
`x / Infinity = 0`.  Division by a finite zero (JS `±Infinity`/`NaN`) is
modelled as `0`; unreachable from validated inputs. -/
def jsDiv (x : ℝ) (y : EReal) : ℝ :=
  if y = ⊤ ∨ y = ⊥ then 0 else x / y.toReal

/-- JS product of a finite number and a possibly-infinite one.  When `y`
is infinite the JS result is `±Infinity` (or `NaN` for `x = 0`); the model
returns `0`, noted in the file header.  No claim depends on this path. -/
def jsMul (x : ℝ) (y : EReal) : ℝ :=
  if y = ⊤ ∨ y = ⊥ then 0 else x * y.toReal

/-- `calculateTargetRoasForMargin` from src/lib/scenarios.ts. -/
def calculateTargetRoasForMargin (aov netProfitPerOrder profitMargin : ℝ) :
    EReal :=
  if netProfitPerOrder ≤ 0 then ⊤
  else if 1 - profitMargin ≤ 0 then ⊤
  else ((aov / (netProfitPerOrder * (1 - profitMargin)) : ℝ) : EReal)

/-- `calculateProfitDelta` from src/lib/scenarios.ts. -/
def calculateProfitDelta (revenue aov netProfitPerOrder profitMargin : ℝ) :
    ℝ :=
  (revenue / aov) * netProfitPerOrder * profitMargin

/-- `generateScenarios` from src/lib/scenarios.ts (legacy
balance / maxRevenue / maxProfit strategy set). -/
def generateScenarios (inputs : ReverseInputs) (targetROAS : EReal)
    (netProfitPerOrder : ℝ) : ScenarioSet :=
  let revenueTarget := inputs.revenueTarget
  let mediaBudget := inputs.mediaBudget
  let profitMarginGoal := inputs.profitMarginGoal
  let aov := inputs.economics.aov
  let balanceBudget := jsDiv revenueTarget targetROAS
  let balance : ReverseScenario :=
    ⟨"balance", balanceBudget, revenueTarget, targetROAS, cosOf targetROAS,
      profitMarginGoal, balanceBudget - mediaBudget,
      ((balanceBudget - mediaBudget) / mediaBudget) * 100, 0, 0,
      calculateProfitDelta revenueTarget aov netProfitPerOrder profitMarginGoal,
      true⟩
  let maxRevenueBudget := jsDiv revenueTarget targetROAS
  let maxRevenue : ReverseScenario :=
    ⟨"maxRevenue", maxRevenueBudget, revenueTarget, targetROAS,
      cosOf targetROAS, profitMarginGoal, maxRevenueBudget - mediaBudget,
      ((maxRevenueBudget - mediaBudget) / mediaBudget) * 100, 0, 0,
      calculateProfitDelta revenueTarget aov netProfitPerOrder profitMarginGoal,
      false⟩
  let maxProfitTargetMargin := min (profitMarginGoal * 1.25) 0.90
  let maxProfitROAS :=
    calculateTargetRoasForMargin aov netProfitPerOrder maxProfitTargetMargin
  let maxProfitBudget := jsDiv revenueTarget maxProfitROAS
  let maxProfitRevenue := jsMul maxProfitBudget maxProfitROAS
  let maxProfit : ReverseScenario :=
    ⟨"maxProfit", maxProfitBudget, maxProfitRevenue, maxProfitROAS,
      cosOf maxProfitROAS, maxProfitTargetMargin,
      maxProfitBudget - mediaBudget,
      ((maxProfitBudget - mediaBudget) / mediaBudget) * 100,
      maxProfitRevenue - revenueTarget,
      ((maxProfitRevenue - revenueTarget) / revenueTarget) * 100,
      calculateProfitDelta maxProfitRevenue aov netProfitPerOrder
        maxProfitTargetMargin,
      false⟩
  ⟨balance, maxRevenue, maxProfit⟩

/-- `updateScenarioRecommendations` from src/lib/scenarios.ts. -/
def updateScenarioRecommendations (scenarios : ScenarioSet)
    (status : GoalStatus) : ScenarioSet :=
  let balance := scenarios.balance
  let maxRevenue := scenarios.maxRevenue
  let maxProfit := scenarios.maxProfit
  match status with
  | GoalStatus.achievable =>
    ⟨⟨balance.name, balance.recommendedBudget, balance.expectedRevenue,
        balance.requiredROAS, balance.requiredCOS, balance.achievedProfitMargin,
        balance.budgetDelta, balance.budgetDeltaPercent, balance.revenueDelta,
        balance.revenueDeltaPercent, balance.profitDelta, true⟩,
      ⟨maxRevenue.name, maxRevenue.recommendedBudget, maxRevenue.expectedRevenue,
        maxRevenue.requiredROAS, maxRevenue.requiredCOS,
        maxRevenue.achievedProfitMargin, maxRevenue.budgetDelta,
        maxRevenue.budgetDeltaPercent, maxRevenue.revenueDelta,
        maxRevenue.revenueDeltaPercent, maxRevenue.profitDelta, false⟩,
      ⟨maxProfit.name, maxProfit.recommendedBudget, maxProfit.expectedRevenue,
        maxProfit.requiredROAS, maxProfit.requiredCOS,
        maxProfit.achievedProfitMargin, maxProfit.budgetDelta,
        maxProfit.budgetDeltaPercent, maxProfit.revenueDelta,
        maxProfit.revenueDeltaPercent, maxProfit.profitDelta, false⟩⟩
  | GoalStatus.tight =>
    ⟨⟨balance.name, balance.recommendedBudget, balance.expectedRevenue,
        balance.requiredROAS, balance.requiredCOS, balance.achievedProfitMargin,
        balance.budgetDelta, balance.budgetDeltaPercent, balance.revenueDelta,
        balance.revenueDeltaPercent, balance.profitDelta, false⟩,
      ⟨maxRevenue.name, maxRevenue.recommendedBudget, maxRevenue.expectedRevenue,
        maxRevenue.requiredROAS, maxRevenue.requiredCOS,
        maxRevenue.achievedProfitMargin, maxRevenue.budgetDelta,
        maxRevenue.budgetDeltaPercent, maxRevenue.revenueDelta,
        maxRevenue.revenueDeltaPercent, maxRevenue.profitDelta, false⟩,
      ⟨maxProfit.name, maxProfit.recommendedBudget, maxProfit.expectedRevenue,
        maxProfit.requiredROAS, maxProfit.requiredCOS,
        maxProfit.achievedProfitMargin, maxProfit.budgetDelta,
        maxProfit.budgetDeltaPercent, maxProfit.revenueDelta,
        maxProfit.revenueDeltaPercent, maxProfit.profitDelta, true⟩⟩
  | GoalStatus.impossible =>
    ⟨⟨balance.name, balance.recommendedBudget, balance.expectedRevenue,
        balance.requiredROAS, balance.requiredCOS, balance.achievedProfitMargin,
        balance.budgetDelta, balance.budgetDeltaPercent, balance.revenueDelta,
        balance.revenueDeltaPercent, balance.profitDelta, false⟩,
      ⟨maxRevenue.name, maxRevenue.recommendedBudget, maxRevenue.expectedRevenue,
        maxRevenue.requiredROAS, maxRevenue.requiredCOS,
        maxRevenue.achievedProfitMargin, maxRevenue.budgetDelta,
        maxRevenue.budgetDeltaPercent, maxRevenue.revenueDelta,
        maxRevenue.revenueDeltaPercent, maxRevenue.profitDelta, true⟩,
      ⟨maxProfit.name, maxProfit.recommendedBudget, maxProfit.expectedRevenue,
        maxProfit.requiredROAS, maxProfit.requiredCOS,
        maxProfit.achievedProfitMargin, maxProfit.budgetDelta,
        maxProfit.budgetDeltaPercent, maxProfit.revenueDelta,
        maxProfit.revenueDeltaPercent, maxProfit.profitDelta, false⟩⟩

end Legacy

/-! ## Reverse solver main function (src/lib/calculations.ts,
calculateReverse) -/

/-- Output record of `calculateReverse`; the presentation fields
`statusMessage` and `statusDetails` (formatted strings) are omitted. -/
structure ReverseOutputs where
  requiredROAS : ℝ
  requiredCOS : ℝ
  breakEvenROAS : EReal
  targetROAS : EReal
  status : GoalStatus
  scenarios : Legacy.ScenarioSet

/-- `calculateReverse` from src/lib/calculations.ts: fail-fast input
validation (each message naming the violated field, in source order),
then required-ROAS derivation, threshold computation via the forward
calculator, goal classification, and scenario generation.  A thrown
`Error` is modelled as `Except.error` with the source's message. -/
def calculateReverse (industryDefaults : Industry → IndustryDefaults)
    (inputs : ReverseInputs) : Except String ReverseOutputs :=
  if inputs.revenueTarget ≤ 0 then
    Except.error "Intäktsmålet måste vara större än 0"
  else if inputs.mediaBudget ≤ 0 then
    Except.error "Mediabudgeten måste vara större än 0"
  else if inputs.profitMarginGoal < 0 ∨ inputs.profitMarginGoal > 1 then
    Except.error "Vinstmarginalen måste vara mellan 0 och 1 (t.ex. 0.20 för 20%)"
  else if inputs.economics.aov ≤ 0 then
    Except.error "AOV måste vara större än 0"
  else
    let requiredROAS := inputs.revenueTarget / inputs.mediaBudget
    let requiredCOS := (1 / requiredROAS) * 100
    let e := inputs.economics
    let forwardInputs : CalculatorInput :=
      ⟨e.aov, e.industry, e.productCost, e.grossMargin, e.returnRate,
        e.shippingCost, e.shippingCostPercent, e.shippingCostType,
        e.paymentFee, e.ltvMultiplier, some (inputs.profitMarginGoal * 100),
        e.ltvMode⟩
    let forwardOutput := calculateBreakEven industryDefaults forwardInputs
    let breakEvenROAS := forwardOutput.breakEvenRoas
    let targetROAS := forwardOutput.targetRoas
    let status :=
      determineStatus ((requiredROAS : ℝ) : EReal) breakEvenROAS targetROAS
    let baseScenarios :=
      Legacy.generateScenarios inputs targetROAS forwardOutput.netProfitPerOrder
    let scenarios := Legacy.updateScenarioRecommendations baseScenarios status
    Except.ok
      ⟨requiredROAS, requiredCOS, breakEvenROAS, targetROAS, status, scenarios⟩

/-! ## Current scenario generation (src/unnamed/part_004, second module) -/

/-- JS `isFinite` on an extended real. -/
def jsFinite (x : EReal) : Prop := x ≠ ⊤ ∧ x ≠ ⊥

instance (x : EReal) : Decidable (jsFinite x) := by
  unfold jsFinite; infer_instance

/-- `generateScenarios` from the current scenarios module
(src/unnamed/part_004): budgetForTarget / maxRevenueGivenBudget /
maxProfitGivenMinRevenue.  The scenario profits (`sNProfit`) are finite in
the real-valued model, so the JS `isFinite(sNProfit)` guards are the
identity here. -/
def generateScenarios (inputs : ReverseInputs) (targetROAS : EReal)
    (netProfitPerOrder contributionBeforeAds : ℝ)
    (targetImpossible : Bool) : ScenarioSet :=
  let revenueTarget := inputs.revenueTarget
  let mediaBudget := inputs.mediaBudget
  let profitMarginGoal := inputs.profitMarginGoal
  let aov := inputs.economics.aov
  let minRevenuePercent := inputs.minRevenuePercent.getD 80
  -- Scenario 1: budget required to reach the revenue target at target ROAS
  let s1Budget : EReal :=
    if jsFinite targetROAS ∧ 0 < targetROAS then
      ((revenueTarget / targetROAS.toReal : ℝ) : EReal)
    else ⊤
  let s1Revenue := revenueTarget
  let s1COS := cosOf targetROAS
  let s1Orders := if aov > 0 then s1Revenue / aov else 0
  let s1AdCostPerOrder : ℝ :=
    if jsFinite targetROAS ∧ 0 < targetROAS then aov / targetROAS.toReal else 0
  let s1Profit := s1Orders * (contributionBeforeAds - s1AdCostPerOrder)
  let s1RecBudget : ℝ :=
    if jsFinite s1Budget then s1Budget.toReal else mediaBudget
  let budgetForTarget : ReverseScenario :=
    ⟨"budgetForTarget", s1RecBudget, s1Revenue, targetROAS, s1COS,
      profitMarginGoal, s1RecBudget - mediaBudget,
      if jsFinite s1Budget then
        ((s1Budget.toReal - mediaBudget) / mediaBudget) * 100
      else 0,
      0, 0, s1Profit, true⟩
  -- Scenario 2: max revenue holding the current budget at target ROAS
  let s2Revenue : ℝ :=
    if jsFinite targetROAS then mediaBudget * targetROAS.toReal else 0
  let s2Budget := mediaBudget
  let s2COS := cosOf targetROAS
  let s2Orders := if aov > 0 then s2Revenue / aov else 0
  let s2AdCostPerOrder : ℝ :=
    if jsFinite targetROAS ∧ 0 < targetROAS then aov / targetROAS.toReal else 0
  let s2Profit := s2Orders * (contributionBeforeAds - s2AdCostPerOrder)
  let s2RevenueDelta := s2Revenue - revenueTarget
  let maxRevenueGivenBudget : ReverseScenario :=
    ⟨"maxRevenueGivenBudget", s2Budget, s2Revenue, targetROAS, s2COS,
      profitMarginGoal, 0, 0, s2RevenueDelta,
      if revenueTarget > 0 then (s2RevenueDelta / revenueTarget) * 100 else 0,
      s2Profit, false⟩
  -- Scenario 3: max profit at the minimum acceptable revenue
  let s3MinRevenue := revenueTarget * (minRevenuePercent / 100)
  let s3Budget : ℝ :=
    if jsFinite targetROAS ∧ 0 < targetROAS then
      s3MinRevenue / targetROAS.toReal
    else mediaBudget
  let s3Revenue := s3MinRevenue
  let s3COS := cosOf targetROAS
  let s3Orders := if aov > 0 then s3Revenue / aov else 0
  let s3AdCostPerOrder : ℝ :=
    if jsFinite targetROAS ∧ 0 < targetROAS then aov / targetROAS.toReal else 0
  let s3Profit := s3Orders * (contributionBeforeAds - s3AdCostPerOrder)
  let s3RevenueDelta := s3Revenue - revenueTarget
  let maxProfitGivenMinRevenue : ReverseScenario :=
    ⟨"maxProfitGivenMinRevenue", s3Budget, s3Revenue, targetROAS, s3COS,
      profitMarginGoal, s3Budget - mediaBudget,
      ((s3Budget - mediaBudget) / mediaBudget) * 100,
      s3RevenueDelta,
      if revenueTarget > 0 then (s3RevenueDelta / revenueTarget) * 100 else 0,
      s3Profit, false⟩
  ⟨budgetForTarget, maxRevenueGivenBudget, maxProfitGivenMinRevenue⟩

/-! ## ROI simulator (src/unnamed/part_004, first module) -/

/-- Scenario preset selector for the ROI simulator. -/
inductive ROICase
  | worst | expected | best
deriving DecidableEq

/-- Simulation configuration: ramp-up months and ROAS variance percent. -/
structure ROISimulationConfig where
  roiCase : ROICase
  rampUpMonths : ℕ
  variancePercent : ℝ

/-- `getDefaultConfig` from the ROI simulator. -/
def getDefaultConfig (roiCase : ROICase) : ROISimulationConfig :=
  match roiCase with
  | ROICase.worst => ⟨ROICase.worst, 4, -20⟩
  | ROICase.expected => ⟨ROICase.expected, 3, 0⟩
  | ROICase.best => ⟨ROICase.best, 2, 15⟩

/-- One monthly projection record.  Revenue/profit fields are `EReal`
because the scenario's required ROAS can carry the `Infinity` sentinel. -/
structure MonthlyProjection where
  month : ℕ
  label : String
  revenue : EReal
  adSpend : ℝ
  profit : EReal
  cumulativeProfit : EReal
  cumulativeRevenue : EReal

/-- Full simulator output. -/
structure ROISimulation where
  ifWeDo : List MonthlyProjection
  ifWeWait : List MonthlyProjection
  totalRevenueDelta : EReal
  totalProfitDelta : EReal
  breakEvenMonth : ℕ
  roi12Month : EReal

/-- Swedish month labels of the simulator. -/
def monthLabels : List String :=
  ["Jan", "Feb", "Mar", "Apr", "Maj", "Jun",
   "Jul", "Aug", "Sep", "Okt", "Nov", "Dec"]

/-- Per-month linear ramp-up factor: rises from 0.3 toward 1.0 over the
ramp window, then holds at 1.0. -/
def rampFactor (rampUpMonths m : ℕ) : ℝ :=
  if m < rampUpMonths then 0.3 + 0.7 * ((m : ℝ) / (rampUpMonths : ℝ)) else 1

/-- Monthly ad spend of the acting path (month index `m` is 0-based). -/
def simMonthlySpend (inputs : ReverseInputs) (config : ROISimulationConfig)
    (m : ℕ) : ℝ :=
  (inputs.mediaBudget / 12) * rampFactor config.rampUpMonths m

/-- Variance-adjusted ROAS of the acting path. -/
def simAdjustedROAS (scenario : ReverseScenario)
    (config : ROISimulationConfig) : EReal :=
  scenario.requiredROAS * (((1 + config.variancePercent / 100) : ℝ) : EReal)

/-- Monthly ad revenue of the acting path. -/
def simMonthlyRevenue (inputs : ReverseInputs) (scenario : ReverseScenario)
    (config : ROISimulationConfig) (m : ℕ) : EReal :=
  ((simMonthlySpend inputs config m : ℝ) : EReal) *
    simAdjustedROAS scenario config

/-- Monthly profit of the acting path: gross profit at the scenario's
achieved margin minus the month's ad spend. -/
def simMonthlyProfit (inputs : ReverseInputs) (scenario : ReverseScenario)
    (config : ROISimulationConfig) (m : ℕ) : EReal :=
  simMonthlyRevenue inputs scenario config m *
      ((scenario.achievedProfitMargin : ℝ) : EReal) -
    ((simMonthlySpend inputs config m : ℝ) : EReal)

/-- Cumulative acting-path profit after the first `m` months. -/
def simCumProfit (inputs : ReverseInputs) (scenario : ReverseScenario)
    (config : ROISimulationConfig) (m : ℕ) : EReal :=
  ∑ k ∈ Finset.range m, simMonthlyProfit inputs scenario config k

/-- Cumulative acting-path revenue after the first `m` months. -/
def simCumRevenue (inputs : ReverseInputs) (scenario : ReverseScenario)
    (config : ROISimulationConfig) (m : ℕ) : EReal :=
  ∑ k ∈ Finset.range m, simMonthlyRevenue inputs scenario config k

/-- First month index in `start+1 .. start+fuel` whose cumulative profit
is strictly positive — the simulator's running break-even detection. -/
def firstPosMonth (f : ℕ → EReal) : ℕ → ℕ → Option ℕ
  | _, 0 => none
  | m, fuel + 1 =>
    if 0 < f (m + 1) then some (m + 1) else firstPosMonth f (m + 1) fuel

/-- `simulateROI` from src/unnamed/part_004: 12-month acting path against
a zero-spend, zero-revenue waiting baseline. -/
def simulateROI (inputs : ReverseInputs) (scenario : ReverseScenario)
    (config : ROISimulationConfig) : ROISimulation :=
  let months := 12
  let ifWeDo : List MonthlyProjection :=
    (List.range months).map fun m =>
      ⟨m + 1, monthLabels.getD m "",
        simMonthlyRevenue inputs scenario config m,
        simMonthlySpend inputs config m,
        simMonthlyProfit inputs scenario config m,
        simCumProfit inputs scenario config (m + 1),
        simCumRevenue inputs scenario config (m + 1)⟩
  let ifWeWait : List MonthlyProjection :=
    (List.range months).map fun m => ⟨m + 1, monthLabels.getD m "", 0, 0, 0, 0, 0⟩
  let totalRevenueDelta := simCumRevenue inputs scenario config months
  let totalProfitDelta := simCumProfit inputs scenario config months
  let totalAdSpend := ∑ k ∈ Finset.range months, simMonthlySpend inputs config k
  let roi12Month : EReal :=
    if 0 < totalAdSpend then
      totalProfitDelta * ((100 / totalAdSpend : ℝ) : EReal)
    else 0
  let breakEvenMonth :=
    match firstPosMonth (simCumProfit inputs scenario config) 0 months with
    | some m => m
    | none => months + 1
  ⟨ifWeDo, ifWeWait, totalRevenueDelta, totalProfitDelta, breakEvenMonth,
    roi12Month⟩

/-! ## Volume model (src/lib/volume-model.ts) -/

/-- Calibrated power-law configuration: `ln(roas) = a + b * ln(spend)`. -/
structure CalibratedVolumeConfig where
  a : ℝ
  b : ℝ

/-- `predictRoas`: `exp(a) * budget^b`, short-circuiting non-positive
budgets to zero. -/
def predictRoas (budget : ℝ) (config : CalibratedVolumeConfig) : ℝ :=
  if budget ≤ 0 then 0 else Real.exp config.a * budget ^ config.b

/-- `predictRevenue`: `budget * predictRoas(budget)`, short-circuiting
non-positive budgets to zero. -/
def predictRevenue (budget : ℝ) (config : CalibratedVolumeConfig) : ℝ :=
  if budget ≤ 0 then 0 else budget * predictRoas budget config

/-- The profit objective closed over by `findOptimalBudget`:
`profit(budget) = predictRevenue(budget) * profitMargin - budget`. -/
def profitFn (config : CalibratedVolumeConfig) (profitMargin budget : ℝ) :
    ℝ :=
  predictRevenue budget config * profitMargin - budget

/-- Golden ratio. -/
def phi : ℝ := (1 + Real.sqrt 5) / 2

/-- `resphi = 2 - phi`, the golden-section bracket shrink constant. -/
def resphi : ℝ := 2 - phi

/-- The golden-section loop of `findOptimalBudget`, with the source's
bounds: at most 100 iterations, stopping when the bracket width is no
longer above the 100-unit tolerance.  State: bracket `[a, b]`, interior
points `x1 ≤ x2`, and their cached objective values `f1`, `f2`. -/
def gsLoop (f : ℝ → ℝ) : ℕ → ℝ → ℝ → ℝ → ℝ → ℝ → ℝ → ℝ × ℝ
  | 0, a, b, _, _, _, _ => (a, b)
  | fuel + 1, a, b, x1, x2, f1, f2 =>
    if 100 < b - a then
      if f1 < f2 then
        gsLoop f fuel x1 b x2 (b - resphi * (b - x1)) f2
          (f (b - resphi * (b - x1)))
      else
        gsLoop f fuel a x2 (a + resphi * (x2 - a)) x1
          (f (a + resphi * (x2 - a))) f1
    else (a, b)

/-- Result record of the optimal-budget search. -/
structure OptimalBudgetResult where
  budget : ℝ
  revenue : ℝ
  profit : ℝ

/-- `findOptimalBudget` from src/lib/volume-model.ts: golden-section
search maximizing `profitFn` on `[minBudget, maxBudget]`, returning the
midpoint of the final bracket with its revenue and profit. -/
def findOptimalBudget (config : CalibratedVolumeConfig)
    (profitMargin minBudget maxBudget : ℝ) : OptimalBudgetResult :=
  let f := profitFn config profitMargin
  let x1 := minBudget + resphi * (maxBudget - minBudget)
  let x2 := maxBudget - resphi * (maxBudget - minBudget)
  let p := gsLoop f 100 minBudget maxBudget x1 x2 (f x1) (f x2)
  let optimalBudget := (p.1 + p.2) / 2
  ⟨optimalBudget, predictRevenue optimalBudget config,
    predictRevenue optimalBudget config * profitMargin - optimalBudget⟩

/-- Unimodality of `f` on `[lo, hi]`: nondecreasing up to a peak, then
nonincreasing. -/
def UnimodalOn (f : ℝ → ℝ) (lo hi : ℝ) : Prop :=
  ∃ p, lo ≤ p ∧ p ≤ hi ∧
    (∀ x y, lo ≤ x → x ≤ y → y ≤ p → f x ≤ f y) ∧
    (∀ x y, p ≤ x → x ≤ y → y ≤ hi → f y ≤ f x)

/-! ## Calibration engine (src/unnamed/part_002) -/

/-- One parsed historical observation. -/
structure HistoricalDataPoint where
  date : String
  spend : ℝ
  revenue : ℝ
  roas : ℝ

/-- Validation error messages of `validateData`, as structured data: each
constructor corresponds to one itemized Swedish message, carrying the
count the message interpolates. -/
inductive ValidationError
  | tooFewPoints (haveCount : ℕ)
  | invalidSpend (count : ℕ)
  | invalidRoas (count : ℕ)
  | noSpendVariation
deriving DecidableEq

/-- Result of `validateData`. -/
structure ValidationResult where
  valid : Bool
  errors : List ValidationError

open Classical in
/-- `validateData` from the calibration engine: requires at least 5
points, strictly positive spend and ROAS on every row, and spend
variation.  The JS `new Set(spends).size < 2` test is written here as
"all pairs of rows carry the same spend". -/
def validateData (data : List HistoricalDataPoint) : ValidationResult :=
  let errors1 : List ValidationError :=
    if data.length < 5 then [ValidationError.tooFewPoints data.length] else []
  let invalidSpendCount := (data.filter fun d => decide (d.spend ≤ 0)).length
  let errors2 := errors1 ++
    (if 0 < invalidSpendCount then [ValidationError.invalidSpend invalidSpendCount]
     else [])
  let invalidRoasCount := (data.filter fun d => decide (d.roas ≤ 0)).length
  let errors3 := errors2 ++
    (if 0 < invalidRoasCount then [ValidationError.invalidRoas invalidRoasCount]
     else [])
  let errors4 := errors3 ++
    (if (∀ p ∈ data, ∀ q ∈ data, p.spend = q.spend) ∧ 2 ≤ data.length then
      [ValidationError.noSpendVariation]
     else [])
  ⟨errors4.isEmpty, errors4⟩

/-- Three-level fit-quality grade. -/
inductive FitQuality
  | low | medium | high
deriving DecidableEq

/-- Regression output: coefficients, fit statistics, grade, slope
interpretation (as the Swedish source text), the derived calibrated
config, and the spend→ROAS predictor. -/
structure RegressionResult where
  a : ℝ
  b : ℝ
  rSquared : ℝ
  n : ℕ
  fitQuality : FitQuality
  interpretation : String
  config : CalibratedVolumeConfig
  predictedRoas : ℝ → ℝ

/-- `interpretSlope` from the calibration engine: buckets the slope into
four diminishing-returns regimes by the fixed thresholds. -/
def interpretSlope (b : ℝ) : String :=
  if -0.05 < b ∧ b < 0.05 then
    "ROAS är stabil oavsett budget. Inga tydliga avtagande effekter."
  else if -0.3 ≤ b then
    "Lätt avtagande avkastning. Normal för de flesta annonskanaler."
  else if -0.6 ≤ b then
    "Normal avtagande avkastning. Budget bör optimeras noggrant."
  else
    "Stark avtagande effekt. Ökning av budget ger snabbt minskad ROAS."

/-- `runOLS` from the calibration engine: validates, then fits
`ln(roas) = a + b * ln(spend)` by closed-form ordinary least squares,
returning `none` on validation failure or a singular design matrix.  The
function is total, mirroring the source's no-throw contract. -/
def runOLS (data : List HistoricalDataPoint) : Option RegressionResult :=
  if (validateData data).valid = false then none
  else
    let n := data.length
    let X := data.map fun d => Real.log d.spend
    let Y := data.map fun d => Real.log d.roas
    let sumX := X.sum
    let sumY := Y.sum
    let sumXY := (List.zipWith (fun x y => x * y) X Y).sum
    let sumX2 := (X.map fun v => v * v).sum
    let meanX := sumX / (n : ℝ)
    let meanY := sumY / (n : ℝ)
    let denom := (n : ℝ) * sumX2 - sumX * sumX
    if denom = 0 then none
    else
      let b := ((n : ℝ) * sumXY - sumX * sumY) / denom
      let a := meanY - b * meanX
      let ssTot : ℝ := (Y.map fun y => (y - meanY) ^ 2).sum
      let ssRes : ℝ := (List.zipWith (fun y x => (y - (a + b * x)) ^ 2) Y X).sum
      let rSquared : ℝ := if ssTot > 0 then 1 - ssRes / ssTot else 0
      let fitQuality :=
        if rSquared > 0.7 then FitQuality.high
        else if rSquared > 0.3 then FitQuality.medium
        else FitQuality.low
      some ⟨a, b, rSquared, n, fitQuality, interpretSlope b, ⟨a, b⟩,
        fun spend => if spend ≤ 0 then 0 else Real.exp a * spend ^ b⟩

/-! ## Theorems -/

/-- C1 (counterexample): at `requiredROAS = 1`, `breakEvenROAS = 2`,
`targetROAS = 3` — finite thresholds in the required order — the claimed
rule says the result is `achievable`, but `determineStatus` returns
`impossible`. -/
theorem C1_counterexample :
    ((2 : ℝ) : EReal) ≤ ((3 : ℝ) : EReal) ∧
    determineStatus ((1 : ℝ) : EReal) ((2 : ℝ) : EReal) ((3 : ℝ) : EReal) =
      GoalStatus.impossible ∧
    GoalStatus.impossible ≠ GoalStatus.achievable := by
  refine ⟨EReal.coe_le_coe_iff.mpr (by norm_num), ?_, by decide⟩
  unfold determineStatus
  rw [if_pos (EReal.coe_lt_coe_iff.mpr (by norm_num))]

/-- C1 (amended): for finite thresholds with
`breakEvenROAS ≤ targetROAS`, `determineStatus` classifies by the rule
actually implemented: `required < breakEven → impossible`;
`breakEven ≤ required ≤ target → achievable`;
`required > target → tight`. -/
theorem C1_determineStatus_zones (r be t : ℝ) (h : be ≤ t) :
    (r < be →
      determineStatus ((r : ℝ) : EReal) ((be : ℝ) : EReal) ((t : ℝ) : EReal) =
        GoalStatus.impossible) ∧
    (be ≤ r → r ≤ t →
      determineStatus ((r : ℝ) : EReal) ((be : ℝ) : EReal) ((t : ℝ) : EReal) =
        GoalStatus.achievable) ∧
    (t < r →
      determineStatus ((r : ℝ) : EReal) ((be : ℝ) : EReal) ((t : ℝ) : EReal) =
        GoalStatus.tight) := by
  unfold determineStatus
  refine ⟨fun h1 => ?_, fun h1 h2 => ?_, fun h1 => ?_⟩
  · rw [if_pos (EReal.coe_lt_coe_iff.mpr h1)]
  · rw [if_neg (by simp [EReal.coe_lt_coe_iff, not_lt, h1]),
      if_pos (EReal.coe_le_coe_iff.mpr h2)]
  · rw [if_neg (by simp [EReal.coe_lt_coe_iff, not_lt, le_trans h (le_of_lt h1)]),
      if_neg (by simp [EReal.coe_le_coe_iff, not_le, h1])]

/-- C1 (witness for the amended theorem): at
`required = 5/2`, `breakEven = 2`, `target = 3` the middle zone applies
and the status is `achievable`. -/
theorem C1_determineStatus_zones_w :
    (2 : ℝ) ≤ 3 ∧
    determineStatus (((5 : ℝ) / 2 : ℝ) : EReal) ((2 : ℝ) : EReal)
      ((3 : ℝ) : EReal) = GoalStatus.achievable :=
  ⟨by norm_num,
    (C1_determineStatus_zones (5 / 2) 2 3 (by norm_num)).2.1 (by norm_num)
      (by norm_num)⟩

/-- C2: for the input AOV = 1000, grossMargin = 50 %, returnRate = 0,
shippingCost = 0, paymentFee = 0 (any industry, any defaults table), the
unit-economics pipeline yields contribution 500 and break-even ROAS 2.0;
with a desired margin of 20 % of AOV (LTV mode off) the max target ad
cost is 300 and the target ROAS is 1000/300. -/
theorem C2_scenario_values (d : Industry → IndustryDefaults) (ind : Industry) :
    (computeUnitEconomics d
        ⟨1000, ind, none, some 50, some 0, some 0, none, none, some 0,
          none, none, none⟩).contributionBeforeAds = 500 ∧
    (computeRoasThresholds
        (computeUnitEconomics d
          ⟨1000, ind, none, some 50, some 0, some 0, none, none, some 0,
            none, none, none⟩) 1000 0.2 none none).breakEvenRoas =
      ((2 : ℝ) : EReal) ∧
    (computeRoasThresholds
        (computeUnitEconomics d
          ⟨1000, ind, none, some 50, some 0, some 0, none, none, some 0,
            none, none, none⟩) 1000 0.2 none none).maxAdCostTarget = 300 ∧
    (computeRoasThresholds
        (computeUnitEconomics d
          ⟨1000, ind, none, some 50, some 0, some 0, none, none, some 0,
            none, none, none⟩) 1000 0.2 none none).targetRoas =
      ((1000 / 300 : ℝ) : EReal) := by
  have hue : (computeUnitEconomics d
      ⟨1000, ind, none, some 50, some 0, some 0, none, none, some 0,
        none, none, none⟩).contributionBeforeAds = 500 := by
    simp only [computeUnitEconomics]
    norm_num
  refine ⟨hue, ?_, ?_, ?_⟩
  · simp only [computeRoasThresholds, hue]
    norm_num
  · simp only [computeRoasThresholds, hue]
    norm_num
  · simp only [computeRoasThresholds, hue]
    norm_num

/-- C3: for a valid reverse goal and a finite positive target ROAS, the
budget-for-target scenario has revenue delta exactly 0, and the
max-revenue-given-budget scenario has budget delta exactly 0, keeps the
original media budget, and projects revenue `mediaBudget * targetROAS`. -/
theorem C3_scenario_deltas (inputs : ReverseInputs) (t npo contrib : ℝ)
    (ti : Bool) (hrt : 0 < inputs.revenueTarget)
    (hmb : 0 < inputs.mediaBudget) (hpm0 : 0 ≤ inputs.profitMarginGoal)
    (hpm1 : inputs.profitMarginGoal ≤ 1) (haov : 0 < inputs.economics.aov)
    (ht : 0 < t) :
    (generateScenarios inputs ((t : ℝ) : EReal) npo contrib
        ti).budgetForTarget.revenueDelta = 0 ∧
    (generateScenarios inputs ((t : ℝ) : EReal) npo contrib
        ti).maxRevenueGivenBudget.budgetDelta = 0 ∧
    (generateScenarios inputs ((t : ℝ) : EReal) npo contrib
        ti).maxRevenueGivenBudget.recommendedBudget = inputs.mediaBudget ∧
    (generateScenarios inputs ((t : ℝ) : EReal) npo contrib
        ti).maxRevenueGivenBudget.expectedRevenue =
      inputs.mediaBudget * t := by
  refine ⟨rfl, rfl, rfl, ?_⟩
  simp [generateScenarios, jsFinite, EReal.coe_ne_top, EReal.coe_ne_bot,
    EReal.toReal_coe]

/-- C3 (witness): a concrete valid goal — revenue target 1,000,000,
budget 250,000, margin goal 0.2, AOV 800 — with target ROAS 10/3. -/
theorem C3_scenario_deltas_w :
    (0 : ℝ) < 1000000 ∧
    (generateScenarios
        ⟨1000000, 250000, 0.2,
          ⟨800, Industry.ecommerce, none, none, none, none, none, none,
            none, none, none, none⟩, none⟩
        (((10 : ℝ) / 3 : ℝ) : EReal) 300 300
        false).maxRevenueGivenBudget.budgetDelta = 0 :=
  ⟨by norm_num,
    (C3_scenario_deltas
        ⟨1000000, 250000, 0.2,
          ⟨800, Industry.ecommerce, none, none, none, none, none, none,
            none, none, none, none⟩, none⟩
        (10 / 3) 300 300 false (by norm_num) (by norm_num) (by norm_num)
        (by norm_num) (by norm_num) (by norm_num)).2.1⟩

/-- C4: `calculateReverse` fails fast with the message naming the first
violated field (in source order: revenue target, media budget, profit
margin goal, AOV), and raises no validation error on any input passing
all four checks. -/
theorem C4_validation (d : Industry → IndustryDefaults)
    (inputs : ReverseInputs) :
    (inputs.revenueTarget ≤ 0 →
      calculateReverse d inputs =
        Except.error "Intäktsmålet måste vara större än 0") ∧
    (0 < inputs.revenueTarget → inputs.mediaBudget ≤ 0 →
      calculateReverse d inputs =
        Except.error "Mediabudgeten måste vara större än 0") ∧
    (0 < inputs.revenueTarget → 0 < inputs.mediaBudget →
      (inputs.profitMarginGoal < 0 ∨ 1 < inputs.profitMarginGoal) →
      calculateReverse d inputs =
        Except.error
          "Vinstmarginalen måste vara mellan 0 och 1 (t.ex. 0.20 för 20%)") ∧
    (0 < inputs.revenueTarget → 0 < inputs.mediaBudget →
      0 ≤ inputs.profitMarginGoal → inputs.profitMarginGoal ≤ 1 →
      inputs.economics.aov ≤ 0 →
      calculateReverse d inputs =
        Except.error "AOV måste vara större än 0") ∧
    (0 < inputs.revenueTarget → 0 < inputs.mediaBudget →
      0 ≤ inputs.profitMarginGoal → inputs.profitMarginGoal ≤ 1 →
      0 < inputs.economics.aov →
      ∃ out, calculateReverse d inputs = Except.ok out) := by
  unfold calculateReverse
  refine ⟨fun h1 => ?_, fun h1 h2 => ?_, fun h1 h2 h3 => ?_,
    fun h1 h2 h3 h4 h5 => ?_, fun h1 h2 h3 h4 h5 => ?_⟩
  · rw [if_pos h1]
  · rw [if_neg (not_le.mpr h1), if_pos h2]
  · rw [if_neg (not_le.mpr h1), if_neg (not_le.mpr h2), if_pos h3]
  · rw [if_neg (not_le.mpr h1), if_neg (not_le.mpr h2),
      if_neg (by push_neg; exact ⟨h3, h4⟩), if_pos h5]
  · rw [if_neg (not_le.mpr h1), if_neg (not_le.mpr h2),
      if_neg (by push_neg; exact ⟨h3, h4⟩), if_neg (not_le.mpr h5)]
    exact ⟨_, rfl⟩

/-- C4 (witness): with a non-positive revenue target the first error
message is raised; with an all-valid input an `ok` result is returned. -/
theorem C4_validation_w :
    ((0 : ℝ) ≤ 0 ∧
      calculateReverse (fun _ => ⟨0.5, 0.08, 0.025, 1, 49⟩)
          ⟨0, 100, 0.2,
            ⟨800, Industry.ecommerce, none, none, none, none, none, none,
              none, none, none, none⟩, none⟩ =
        Except.error "Intäktsmålet måste vara större än 0") ∧
    ∃ out,
      calculateReverse (fun _ => ⟨0.5, 0.08, 0.025, 1, 49⟩)
          ⟨1000000, 250000, 0.2,
            ⟨800, Industry.ecommerce, none, none, none, none, none, none,
              none, none, none, none⟩, none⟩ = Except.ok out :=
  ⟨⟨le_refl 0,
      (C4_validation (fun _ => ⟨0.5, 0.08, 0.025, 1, 49⟩)
          ⟨0, 100, 0.2,
            ⟨800, Industry.ecommerce, none, none, none, none, none, none,
              none, none, none, none⟩, none⟩).1 (le_refl 0)⟩,
    (C4_validation (fun _ => ⟨0.5, 0.08, 0.025, 1, 49⟩)
        ⟨1000000, 250000, 0.2,
          ⟨800, Industry.ecommerce, none, none, none, none, none, none,
            none, none, none, none⟩, none⟩).2.2.2.2 (by norm_num)
      (by norm_num) (by norm_num) (by norm_num) (by norm_num)⟩

/-- Core ordering fact behind C9, stated over the raw threshold formulae:
for positive contribution `c`, nonnegative margin `dm`, and nonzero
effective AOV `e`, the target ROAS dominates the break-even ROAS with
equality exactly at `dm = 0`. -/
theorem thresholds_core (c e dm : ℝ) (hc : 0 < c) (hdm : 0 ≤ dm)
    (he : e ≠ 0) :
    ((e / c : ℝ) : EReal) ≤
      (if c - e * dm > 0 then ((e / (c - e * dm) : ℝ) : EReal) else ⊤) ∧
    ((if c - e * dm > 0 then ((e / (c - e * dm) : ℝ) : EReal) else ⊤) =
        ((e / c : ℝ) : EReal) ↔ dm = 0) := by
  by_cases hpos : c - e * dm > 0
  · rw [if_pos hpos]
    have hkey : e * (c - e * dm) ≤ e * c := by nlinarith [sq_nonneg e]
    constructor
    · exact EReal.coe_le_coe_iff.mpr ((div_le_div_iff₀ hc hpos).mpr hkey)
    · rw [EReal.coe_eq_coe_iff,
        div_eq_div_iff (ne_of_gt hpos) (ne_of_gt hc)]
      constructor
      · intro hEq
        have : e * e * dm = 0 := by nlinarith
        have he2 : e * e ≠ 0 := mul_ne_zero he he
        exact (mul_eq_zero.mp this).resolve_left he2
      · intro hdm0; rw [hdm0]; ring
  · rw [if_neg hpos]
    refine ⟨le_top, ?_⟩
    constructor
    · intro hEq
      exact absurd hEq.symm (EReal.coe_ne_top _)
    · intro hdm0
      rw [hdm0] at hpos
      simp at hpos
      linarith

/-- C9: for a unit-economics record with positive contribution, a
nonnegative desired margin of AOV, positive AOV and any LTV setting, the
thresholds are well-ordered: `breakEvenRoas ≤ targetRoas`, with equality
exactly when the desired margin is 0; and whenever the max target ad cost
is non-positive the target ROAS is the infinite sentinel and the
infeasibility flag is set. -/
theorem C9_thresholds_ordered (ue : UnitEconomics) (aov dm : ℝ)
    (ltvMultiplier : Option ℝ) (ltvMode : Option Bool)
    (hc : 0 < ue.contributionBeforeAds) (hdm : 0 ≤ dm) (haov : 0 < aov) :
    (computeRoasThresholds ue aov dm ltvMultiplier ltvMode).breakEvenRoas ≤
      (computeRoasThresholds ue aov dm ltvMultiplier ltvMode).targetRoas ∧
    ((computeRoasThresholds ue aov dm ltvMultiplier ltvMode).targetRoas =
        (computeRoasThresholds ue aov dm ltvMultiplier ltvMode).breakEvenRoas ↔
      dm = 0) ∧
    ((computeRoasThresholds ue aov dm ltvMultiplier ltvMode).maxAdCostTarget ≤ 0 →
      (computeRoasThresholds ue aov dm ltvMultiplier ltvMode).targetRoas = ⊤ ∧
      (computeRoasThresholds ue aov dm ltvMultiplier ltvMode).targetImpossible =
        true) := by
  unfold computeRoasThresholds
  set c := ue.contributionBeforeAds with hcdef
  set e : ℝ :=
    match ltvMode, ltvMultiplier with
    | some true, some k => if k = 0 then aov else aov * k
    | _, _ => aov with hedef
  have he : e ≠ 0 := by
    rw [hedef]
    match ltvMode, ltvMultiplier with
    | some true, some k =>
      by_cases hk : k = 0
      · simpa [hk] using ne_of_gt haov
      · simp only [if_neg hk]
        exact mul_ne_zero (ne_of_gt haov) hk
    | some true, none => exact ne_of_gt haov
    | some false, _ => exact ne_of_gt haov
    | none, _ => exact ne_of_gt haov
  have hcore := thresholds_core c e dm hc hdm he
  simp only [if_pos hc]
  refine ⟨hcore.1, hcore.2, fun hle => ?_⟩
  have hneg : ¬(c - e * dm > 0) := by linarith
  rw [if_neg hneg]
  exact ⟨rfl, by simpa using hle⟩

/-- A list sum as a sum over `Fin`-indexed entries. -/
theorem list_sum_eq_fin_sum (l : List ℝ) :
    l.sum = ∑ i : Fin l.length, l.get i := by
  conv_lhs => rw [← List.ofFn_get l]
  rw [Fin.sum_ofFn]

/-- A mapped list sum as a sum over `Fin`-indexed entries. -/
theorem list_map_sum_eq_fin_sum (l : List ℝ) (g : ℝ → ℝ) :
    (l.map g).sum = ∑ i : Fin l.length, g (l.get i) := by
  conv_lhs => rw [← List.ofFn_get l, List.map_ofFn]
  rw [Fin.sum_ofFn]
  rfl

/-- Positivity of the scaled spend variance: a list of reals with two
distinct members has `n * Σx² - (Σx)² > 0` — the OLS design matrix is
nonsingular whenever the regressor varies. -/
theorem scaled_variance_pos (l : List ℝ)
    (h2 : ∃ x ∈ l, ∃ y ∈ l, x ≠ y) :
    0 < (l.length : ℝ) * (l.map fun v => v * v).sum - l.sum * l.sum := by
  obtain ⟨x, hx, y, hy, hxy⟩ := h2
  obtain ⟨i, hi⟩ := List.mem_iff_get.mp hx
  obtain ⟨j, hj⟩ := List.mem_iff_get.mp hy
  have hnpos : 0 < l.length := List.length_pos.mpr (List.ne_nil_of_mem hx)
  have hnR : (0 : ℝ) < (l.length : ℝ) := Nat.cast_pos.mpr hnpos
  have hT : ∑ k : Fin l.length, ((l.length : ℝ) * l.get k - l.sum) ^ 2 =
      (l.length : ℝ) *
        ((l.length : ℝ) * (l.map fun v => v * v).sum - l.sum * l.sum) := by
    have e1 : ∑ k : Fin l.length, l.get k = l.sum :=
      (list_sum_eq_fin_sum l).symm
    have e2 : ∑ k : Fin l.length, l.get k * l.get k =
        (l.map fun v => v * v).sum :=
      (list_map_sum_eq_fin_sum l fun v => v * v).symm
    have expand : ∀ k : Fin l.length,
        ((l.length : ℝ) * l.get k - l.sum) ^ 2 =
          (l.length : ℝ) ^ 2 * (l.get k * l.get k) -
            2 * (l.length : ℝ) * l.sum * l.get k + l.sum ^ 2 := by
      intro k; ring
    rw [Finset.sum_congr rfl fun k _ => expand k]
    rw [Finset.sum_add_distrib, Finset.sum_sub_distrib, ← Finset.mul_sum,
      ← Finset.mul_sum, e1, e2, Finset.sum_const, Finset.card_univ,
      Fintype.card_fin, nsmul_eq_mul]
    ring
  have hne : ¬((l.length : ℝ) * l.get i - l.sum = 0 ∧
      (l.length : ℝ) * l.get j - l.sum = 0) := by
    rintro ⟨hzi, hzj⟩
    apply hxy
    rw [← hi, ← hj]
    have hmul : (l.length : ℝ) * l.get i = (l.length : ℝ) * l.get j := by
      linarith
    exact mul_left_cancel₀ (ne_of_gt hnR) hmul
  have hTpos :
      0 < ∑ k : Fin l.length, ((l.length : ℝ) * l.get k - l.sum) ^ 2 := by
    apply Finset.sum_pos' (fun k _ => sq_nonneg _)
    by_cases hzi : (l.length : ℝ) * l.get i - l.sum = 0
    · have hzj : (l.length : ℝ) * l.get j - l.sum ≠ 0 := fun hz =>
        hne ⟨hzi, hz⟩
      exact ⟨j, Finset.mem_univ j, sq_pos_of_ne_zero hzj⟩
    · exact ⟨i, Finset.mem_univ i, sq_pos_of_ne_zero hzi⟩
  nlinarith [hT, hTpos, hnR]

/-- Helper: an `if`-guarded singleton list is empty iff the guard
fails. -/
theorem if_singleton_eq_nil {α : Type} (c : Prop) [Decidable c] (x : α) :
    (if c then [x] else ([] : List α)) = [] ↔ ¬c := by
  by_cases h : c <;> simp [h]

/-- Characterization of `validateData`: the data set is valid exactly
when it has at least 5 rows, strictly positive spend and ROAS throughout,
and spend variation. -/
theorem validateData_valid_iff (data : List HistoricalDataPoint) :
    (validateData data).valid = true ↔
      (5 ≤ data.length ∧ (∀ p ∈ data, 0 < p.spend) ∧
        (∀ p ∈ data, 0 < p.roas) ∧
        ¬((∀ p ∈ data, ∀ q ∈ data, p.spend = q.spend) ∧
          2 ≤ data.length)) := by
  have hspend :
      (¬0 < (data.filter fun d => decide (d.spend ≤ 0)).length) ↔
        ∀ p ∈ data, 0 < p.spend := by
    rw [not_lt, Nat.le_zero, List.length_eq_zero, List.filter_eq_nil_iff]
    constructor
    · intro h p hp
      have := h p hp
      simpa [not_le] using this
    · intro h p hp
      simpa [not_le] using h p hp
  have hroas :
      (¬0 < (data.filter fun d => decide (d.roas ≤ 0)).length) ↔
        ∀ p ∈ data, 0 < p.roas := by
    rw [not_lt, Nat.le_zero, List.length_eq_zero, List.filter_eq_nil_iff]
    constructor
    · intro h p hp
      have := h p hp
      simpa [not_le] using this
    · intro h p hp
      simpa [not_le] using h p hp
  unfold validateData
  rw [List.isEmpty_iff]
  simp only [List.append_eq_nil, if_singleton_eq_nil]
  rw [hspend, hroas, not_lt]
  tauto

/-- When validation passes, `runOLS` produces a result: the design
matrix cannot be singular because spends are positive and vary, and the
logarithm is injective on positives. -/
theorem runOLS_isSome_of_valid (data : List HistoricalDataPoint)
    (hv : (validateData data).valid = true) :
    ∃ r, runOLS data = some r := by
  obtain ⟨hlen, hspend, _hroas, hvar⟩ := (validateData_valid_iff data).mp hv
  have hvar2 : ∃ p ∈ data, ∃ q ∈ data, p.spend ≠ q.spend := by
    by_contra hall
    push_neg at hall
    exact hvar ⟨hall, by omega⟩
  obtain ⟨p, hp, q, hq, hpq⟩ := hvar2
  have hlog : Real.log p.spend ≠ Real.log q.spend := by
    intro hEq
    apply hpq
    have hep : p.spend = Real.exp (Real.log p.spend) :=
      (Real.exp_log (hspend p hp)).symm
    have heq : q.spend = Real.exp (Real.log q.spend) :=
      (Real.exp_log (hspend q hq)).symm
    rw [hep, heq, hEq]
  set X := data.map fun d => Real.log d.spend with hX
  have hmem1 : Real.log p.spend ∈ X := List.mem_map_of_mem _ hp
  have hmem2 : Real.log q.spend ∈ X := List.mem_map_of_mem _ hq
  have hdpos : 0 < (X.length : ℝ) * (X.map fun v => v * v).sum - X.sum * X.sum :=
    scaled_variance_pos X ⟨_, hmem1, _, hmem2, hlog⟩
  have hXlen : X.length = data.length := List.length_map _ _
  rw [hXlen] at hdpos
  unfold runOLS
  rw [if_neg (by rw [hv]; simp)]
  rw [if_neg (by rw [← hX]; exact ne_of_gt hdpos)]
  exact ⟨_, rfl⟩

/-- C5: `runOLS` is a total function that returns `none` exactly when the
data set has fewer than 5 rows, contains a non-positive spend or ROAS, or
has no spend variation (the singular design matrix coincides with the
no-variation case); and whenever it returns `none`, `validateData`
reports a non-empty itemized error list. -/
theorem C5_runOLS_none_iff (data : List HistoricalDataPoint) :
    (runOLS data = none ↔
      (data.length < 5 ∨ (∃ p ∈ data, p.spend ≤ 0) ∨
        (∃ p ∈ data, p.roas ≤ 0) ∨
        ((∀ p ∈ data, ∀ q ∈ data, p.spend = q.spend) ∧
          2 ≤ data.length))) ∧
    (runOLS data = none → (validateData data).errors ≠ []) := by
  have hnspend : (¬∀ p ∈ data, 0 < p.spend) ↔ ∃ p ∈ data, p.spend ≤ 0 := by
    constructor
    · intro h; push_neg at h; exact h
    · intro h; push_neg; exact h
  have hnroas : (¬∀ p ∈ data, 0 < p.roas) ↔ ∃ p ∈ data, p.roas ≤ 0 := by
    constructor
    · intro h; push_neg at h; exact h
    · intro h; push_neg; exact h
  have hchar : ¬((validateData data).valid = true) ↔
      (data.length < 5 ∨ (∃ p ∈ data, p.spend ≤ 0) ∨
        (∃ p ∈ data, p.roas ≤ 0) ∨
        ((∀ p ∈ data, ∀ q ∈ data, p.spend = q.spend) ∧
          2 ≤ data.length)) := by
    rw [validateData_valid_iff]
    constructor
    · intro h
      rcases not_and_or.mp h with h1 | h'
      · exact Or.inl (not_le.mp h1)
      rcases not_and_or.mp h' with h2 | h''
      · exact Or.inr (Or.inl (hnspend.mp h2))
      rcases not_and_or.mp h'' with h3 | h4
      · exact Or.inr (Or.inr (Or.inl (hnroas.mp h3)))
      · exact Or.inr (Or.inr (Or.inr (not_not.mp h4)))
    · rintro (h | h | h | h)
      · exact fun hc => absurd hc.1 (not_le.mpr h)
      · intro hc
        obtain ⟨p, hp, hle⟩ := h
        exact absurd (hc.2.1 p hp) (not_lt.mpr hle)
      · intro hc
        obtain ⟨p, hp, hle⟩ := h
        exact absurd (hc.2.2.1 p hp) (not_lt.mpr hle)
      · exact fun hc => hc.2.2.2 h
  constructor
  · constructor
    · intro hnone
      by_cases hv : (validateData data).valid = true
      · obtain ⟨r, hr⟩ := runOLS_isSome_of_valid data hv
        rw [hr] at hnone
        exact absurd hnone (by simp)
      · exact hchar.mp hv
    · intro hcond
      have hv : ¬((validateData data).valid = true) := hchar.mpr hcond
      unfold runOLS
      rw [if_pos (by revert hv; cases (validateData data).valid <;> simp)]
  · intro hnone
    intro herr
    have hv : (validateData data).valid = true := by
      unfold validateData at herr ⊢
      simp only [List.isEmpty_iff]
      exact herr
    obtain ⟨r, hr⟩ := runOLS_isSome_of_valid data hv
    rw [hr] at hnone
    exact absurd hnone (by simp)

/-- C5 (witness): the empty data set has fewer than 5 points and indeed
regresses to `none`. -/
theorem C5_runOLS_none_iff_w :
    ([] : List HistoricalDataPoint).length < 5 ∧
    runOLS ([] : List HistoricalDataPoint) = none :=
  ⟨by decide,
    (C5_runOLS_none_iff ([] : List HistoricalDataPoint)).1.mpr
      (Or.inl (by decide))⟩

/-- Bounds on `√5` used by the golden-section constants. -/
theorem sqrt5_bounds : 2 < Real.sqrt 5 ∧ Real.sqrt 5 < 3 := by
  have h5 : Real.sqrt 5 ^ 2 = 5 := Real.sq_sqrt (by norm_num)
  have hnn := Real.sqrt_nonneg 5
  constructor <;> nlinarith

/-- The shrink constant is positive. -/
theorem resphi_pos : 0 < resphi := by
  unfold resphi phi
  nlinarith [sqrt5_bounds.2]

/-- The shrink constant is below one half, so the interior points stay
ordered. -/
theorem resphi_lt_half : resphi < 1 / 2 := by
  unfold resphi phi
  nlinarith [sqrt5_bounds.1]

/-- The golden identity satisfied by the shrink constant. -/
theorem resphi_sq : resphi ^ 2 = 3 * resphi - 1 := by
  unfold resphi phi
  have h5 : Real.sqrt 5 ^ 2 = 5 := Real.sq_sqrt (by norm_num)
  nlinarith [h5]

/-- The golden-section loop keeps its bracket inside the initial
interval and ordered, for interior points in canonical golden
position. -/
theorem gsLoop_bracket (f : ℝ → ℝ) :
    ∀ (fuel : ℕ) (a b f1 f2 : ℝ), a ≤ b →
      a ≤ (gsLoop f fuel a b (a + resphi * (b - a)) (b - resphi * (b - a))
            f1 f2).1 ∧
      (gsLoop f fuel a b (a + resphi * (b - a)) (b - resphi * (b - a))
          f1 f2).1 ≤
        (gsLoop f fuel a b (a + resphi * (b - a)) (b - resphi * (b - a))
            f1 f2).2 ∧
      (gsLoop f fuel a b (a + resphi * (b - a)) (b - resphi * (b - a))
          f1 f2).2 ≤ b := by
  intro fuel
  induction fuel with
  | zero =>
    intro a b f1 f2 hab
    exact ⟨le_refl a, hab, le_refl b⟩
  | succ n ih =>
    intro a b f1 f2 hab
    rw [gsLoop]
    by_cases hw : 100 < b - a
    · rw [if_pos hw]
      by_cases hf : f1 < f2
      · rw [if_pos hf]
        have hx1b : a + resphi * (b - a) ≤ b := by
          nlinarith [resphi_pos, resphi_lt_half]
        have harg : b - resphi * (b - a) =
            (a + resphi * (b - a)) +
              resphi * (b - (a + resphi * (b - a))) := by
          linear_combination (b - a) * resphi_sq
        rw [harg]
        obtain ⟨h1, h2, h3⟩ :=
          ih (a + resphi * (b - a)) b f2
            (f (b - resphi * (b - (a + resphi * (b - a))))) hx1b
        refine ⟨le_trans ?_ h1, h2, h3⟩
        nlinarith [resphi_pos]
      · rw [if_neg hf]
        have hax2 : a ≤ b - resphi * (b - a) := by
          nlinarith [resphi_pos, resphi_lt_half]
        have harg : a + resphi * (b - a) =
            (b - resphi * (b - a)) -
              resphi * ((b - resphi * (b - a)) - a) := by
          linear_combination (a - b) * resphi_sq
        rw [harg]
        obtain ⟨h1, h2, h3⟩ :=
          ih a (b - resphi * (b - a))
            (f (a + resphi * ((b - resphi * (b - a)) - a))) f1 hax2
        refine ⟨h1, h2, le_trans h3 ?_⟩
        nlinarith [resphi_pos]
    · rw [if_neg hw]
      exact ⟨le_refl a, hab, le_refl b⟩

/-- C10: for any calibrated config, margin, and ordered bounds, the
returned optimal budget lies within `[minBudget, maxBudget]`, and the
returned revenue and profit are exactly `predictRevenue` and the profit
objective evaluated at that budget. -/
theorem C10_findOptimalBudget_sound (config : CalibratedVolumeConfig)
    (profitMargin minBudget maxBudget : ℝ) (h : minBudget ≤ maxBudget) :
    minBudget ≤ (findOptimalBudget config profitMargin minBudget
        maxBudget).budget ∧
    (findOptimalBudget config profitMargin minBudget maxBudget).budget ≤
      maxBudget ∧
    (findOptimalBudget config profitMargin minBudget maxBudget).revenue =
      predictRevenue
        (findOptimalBudget config profitMargin minBudget maxBudget).budget
        config ∧
    (findOptimalBudget config profitMargin minBudget maxBudget).profit =
      predictRevenue
          (findOptimalBudget config profitMargin minBudget maxBudget).budget
          config * profitMargin -
        (findOptimalBudget config profitMargin minBudget maxBudget).budget := by
  obtain ⟨h1, h2, h3⟩ :=
    gsLoop_bracket (profitFn config profitMargin) 100 minBudget maxBudget
      (profitFn config profitMargin
        (minBudget + resphi * (maxBudget - minBudget)))
      (profitFn config profitMargin
        (maxBudget - resphi * (maxBudget - minBudget))) h
  refine ⟨?_, ?_, rfl, rfl⟩
  · show minBudget ≤
      ((gsLoop (profitFn config profitMargin) 100 minBudget maxBudget
          (minBudget + resphi * (maxBudget - minBudget))
          (maxBudget - resphi * (maxBudget - minBudget))
          (profitFn config profitMargin
            (minBudget + resphi * (maxBudget - minBudget)))
          (profitFn config profitMargin
            (maxBudget - resphi * (maxBudget - minBudget)))).1 +
        (gsLoop (profitFn config profitMargin) 100 minBudget maxBudget
          (minBudget + resphi * (maxBudget - minBudget))
          (maxBudget - resphi * (maxBudget - minBudget))
          (profitFn config profitMargin
            (minBudget + resphi * (maxBudget - minBudget)))
          (profitFn config profitMargin
            (maxBudget - resphi * (maxBudget - minBudget)))).2) / 2
    linarith
  · show ((gsLoop (profitFn config profitMargin) 100 minBudget maxBudget
          (minBudget + resphi * (maxBudget - minBudget))
          (maxBudget - resphi * (maxBudget - minBudget))
          (profitFn config profitMargin
            (minBudget + resphi * (maxBudget - minBudget)))
          (profitFn config profitMargin
            (maxBudget - resphi * (maxBudget - minBudget)))).1 +
        (gsLoop (profitFn config profitMargin) 100 minBudget maxBudget
          (minBudget + resphi * (maxBudget - minBudget))
          (maxBudget - resphi * (maxBudget - minBudget))
          (profitFn config profitMargin
            (minBudget + resphi * (maxBudget - minBudget)))
          (profitFn config profitMargin
            (maxBudget - resphi * (maxBudget - minBudget)))).2) / 2 ≤
      maxBudget
    linarith

/-- C10 (witness): at config `(a, b) = (0, 0)`, margin 1, bounds
`[0, 50]` the returned budget lies within the bounds. -/
theorem C10_findOptimalBudget_sound_w :
    (0 : ℝ) ≤ 50 ∧
    0 ≤ (findOptimalBudget ⟨0, 0⟩ 1 0 50).budget :=
  ⟨by norm_num, (C10_findOptimalBudget_sound ⟨0, 0⟩ 1 0 50 (by norm_num)).1⟩

/-- Shared facts about `findOptimalBudget`: the returned budget stays in
the search interval and the returned profit is the objective at that
budget. -/
theorem findOptimalBudget_facts (config : CalibratedVolumeConfig)
    (profitMargin minBudget maxBudget : ℝ) (h : minBudget ≤ maxBudget) :
    minBudget ≤ (findOptimalBudget config profitMargin minBudget
        maxBudget).budget ∧
    (findOptimalBudget config profitMargin minBudget maxBudget).budget ≤
      maxBudget ∧
    (findOptimalBudget config profitMargin minBudget maxBudget).profit =
      profitFn config profitMargin
        (findOptimalBudget config profitMargin minBudget maxBudget).budget := by
  obtain ⟨h1, h2, h3⟩ :=
    gsLoop_bracket (profitFn config profitMargin) 100 minBudget maxBudget
      (profitFn config profitMargin
        (minBudget + resphi * (maxBudget - minBudget)))
      (profitFn config profitMargin
        (maxBudget - resphi * (maxBudget - minBudget))) h
  refine ⟨?_, ?_, rfl⟩
  · show minBudget ≤
      ((gsLoop (profitFn config profitMargin) 100 minBudget maxBudget
          (minBudget + resphi * (maxBudget - minBudget))
          (maxBudget - resphi * (maxBudget - minBudget))
          (profitFn config profitMargin
            (minBudget + resphi * (maxBudget - minBudget)))
          (profitFn config profitMargin
            (maxBudget - resphi * (maxBudget - minBudget)))).1 +
        (gsLoop (profitFn config profitMargin) 100 minBudget maxBudget
          (minBudget + resphi * (maxBudget - minBudget))
          (maxBudget - resphi * (maxBudget - minBudget))
          (profitFn config profitMargin
            (minBudget + resphi * (maxBudget - minBudget)))
          (profitFn config profitMargin
            (maxBudget - resphi * (maxBudget - minBudget)))).2) / 2
    linarith
  · show ((gsLoop (profitFn config profitMargin) 100 minBudget maxBudget
          (minBudget + resphi * (maxBudget - minBudget))
          (maxBudget - resphi * (maxBudget - minBudget))
          (profitFn config profitMargin
            (minBudget + resphi * (maxBudget - minBudget)))
          (profitFn config profitMargin
            (maxBudget - resphi * (maxBudget - minBudget)))).1 +
        (gsLoop (profitFn config profitMargin) 100 minBudget maxBudget
          (minBudget + resphi * (maxBudget - minBudget))
          (maxBudget - resphi * (maxBudget - minBudget))
          (profitFn config profitMargin
            (minBudget + resphi * (maxBudget - minBudget)))
          (profitFn config profitMargin
            (maxBudget - resphi * (maxBudget - minBudget)))).2) / 2 ≤
      maxBudget
    linarith

/-- C6 (amended): for ordered bounds and a profit objective unimodal on
the search interval, the profit at the budget returned by
`findOptimalBudget` is at least the smaller of the two boundary profits
(the larger boundary profit is not guaranteed; see the
counterexample). -/
theorem C6_optimal_ge_min_boundary (config : CalibratedVolumeConfig)
    (profitMargin minBudget maxBudget : ℝ) (h : minBudget ≤ maxBudget)
    (hu : UnimodalOn (profitFn config profitMargin) minBudget maxBudget) :
    min (profitFn config profitMargin minBudget)
        (profitFn config profitMargin maxBudget) ≤
      (findOptimalBudget config profitMargin minBudget maxBudget).profit := by
  obtain ⟨p, hp1, hp2, hinc, hdec⟩ := hu
  obtain ⟨hb1, hb2, hprofit⟩ :=
    findOptimalBudget_facts config profitMargin minBudget maxBudget h
  rcases le_total
      (findOptimalBudget config profitMargin minBudget maxBudget).budget p with
    hbp | hpb
  · have hmono := hinc minBudget
      (findOptimalBudget config profitMargin minBudget maxBudget).budget
      (le_refl minBudget) hb1 hbp
    calc min (profitFn config profitMargin minBudget)
          (profitFn config profitMargin maxBudget) ≤
        profitFn config profitMargin minBudget := min_le_left _ _
      _ ≤ profitFn config profitMargin
            (findOptimalBudget config profitMargin minBudget
              maxBudget).budget := hmono
      _ = (findOptimalBudget config profitMargin minBudget
            maxBudget).profit := hprofit.symm
  · have hmono := hdec
      (findOptimalBudget config profitMargin minBudget maxBudget).budget
      maxBudget hpb hb2 (le_refl maxBudget)
    calc min (profitFn config profitMargin minBudget)
          (profitFn config profitMargin maxBudget) ≤
        profitFn config profitMargin maxBudget := min_le_right _ _
      _ ≤ profitFn config profitMargin
            (findOptimalBudget config profitMargin minBudget
              maxBudget).budget := hmono
      _ = (findOptimalBudget config profitMargin minBudget
            maxBudget).profit := hprofit.symm

/-- Closed form of the profit objective for config `(0, 0)` and margin
`1/2`: zero spend gives zero profit, positive spend loses half of it. -/
theorem profitFn_half_eval (t : ℝ) :
    profitFn ⟨0, 0⟩ (1 / 2) t = if t ≤ 0 then -t else -(t / 2) := by
  simp only [profitFn, predictRevenue, predictRoas]
  by_cases ht : t ≤ 0
  · simp only [if_pos ht]
    ring
  · simp only [if_neg ht, Real.exp_zero, Real.rpow_zero]
    ring

/-- The config-`(0, 0)`, margin-`1/2` profit objective is unimodal on
`[0, 100]` with its peak at the left boundary. -/
theorem profitFn_half_unimodal : UnimodalOn (profitFn ⟨0, 0⟩ (1 / 2)) 0 100 := by
  refine ⟨0, le_refl 0, by norm_num, ?_, ?_⟩
  · intro x y hx hxy hy0
    have hx0 : x = 0 := le_antisymm (le_trans hxy hy0) hx
    have hy0e : y = 0 := le_antisymm hy0 (hx0 ▸ hxy)
    rw [hx0, hy0e]
  · intro x y h0x hxy _
    rw [profitFn_half_eval, profitFn_half_eval]
    by_cases hx0 : x ≤ 0
    · have hx0e : x = 0 := le_antisymm hx0 h0x
      by_cases hy0 : y ≤ 0
      · have hy0e : y = 0 := le_antisymm hy0 (hx0e ▸ hxy)
        rw [hx0e, hy0e]
      · rw [if_pos hx0, if_neg hy0]
        push_neg at hy0
        linarith
    · have hy0 : ¬y ≤ 0 := fun hy => hx0 (le_trans hxy hy)
      rw [if_neg hx0, if_neg hy0]
      linarith

/-- C6 (counterexample): with config `(0, 0)`, margin `1/2` and bounds
`[0, 100]` the profit objective is unimodal, yet the profit at the
returned budget (the bracket midpoint 50, profit −25) is strictly below
the profit at `minBudget = 0` (which is 0) — the claimed boundary
guarantee fails at the peak-side boundary. -/
theorem C6_counterexample :
    (0 : ℝ) ≤ 100 ∧
    UnimodalOn (profitFn ⟨0, 0⟩ (1 / 2)) 0 100 ∧
    (findOptimalBudget ⟨0, 0⟩ (1 / 2) 0 100).profit <
      profitFn ⟨0, 0⟩ (1 / 2) 0 := by
  refine ⟨by norm_num, profitFn_half_unimodal, ?_⟩
  have h100 : (100 : ℕ) = 99 + 1 := by norm_num
  have hgs : gsLoop (profitFn ⟨0, 0⟩ (1 / 2)) 100 0 100
      (0 + resphi * (100 - 0)) (100 - resphi * (100 - 0))
      (profitFn ⟨0, 0⟩ (1 / 2) (0 + resphi * (100 - 0)))
      (profitFn ⟨0, 0⟩ (1 / 2) (100 - resphi * (100 - 0))) = (0, 100) := by
    rw [h100, gsLoop]
    rw [if_neg (by norm_num : ¬(100 : ℝ) < 100 - 0)]
  have hb : (findOptimalBudget ⟨0, 0⟩ (1 / 2) 0 100).budget = 50 := by
    show ((gsLoop (profitFn ⟨0, 0⟩ (1 / 2)) 100 0 100
        (0 + resphi * (100 - 0)) (100 - resphi * (100 - 0))
        (profitFn ⟨0, 0⟩ (1 / 2) (0 + resphi * (100 - 0)))
        (profitFn ⟨0, 0⟩ (1 / 2) (100 - resphi * (100 - 0)))).1 +
      (gsLoop (profitFn ⟨0, 0⟩ (1 / 2)) 100 0 100
        (0 + resphi * (100 - 0)) (100 - resphi * (100 - 0))
        (profitFn ⟨0, 0⟩ (1 / 2) (0 + resphi * (100 - 0)))
        (profitFn ⟨0, 0⟩ (1 / 2) (100 - resphi * (100 - 0)))).2) / 2 = 50
    rw [hgs]
    norm_num
  have hp : (findOptimalBudget ⟨0, 0⟩ (1 / 2) 0 100).profit =
      profitFn ⟨0, 0⟩ (1 / 2)
        ((findOptimalBudget ⟨0, 0⟩ (1 / 2) 0 100).budget) :=
    (findOptimalBudget_facts ⟨0, 0⟩ (1 / 2) 0 100 (by norm_num)).2.2
  rw [hp, hb, profitFn_half_eval, profitFn_half_eval]
  norm_num

/-- C6 (witness for the amended theorem): the same concrete unimodal
instance satisfies the min-of-boundaries bound. -/
theorem C6_optimal_ge_min_boundary_w :
    (0 : ℝ) ≤ 100 ∧
    min (profitFn ⟨0, 0⟩ (1 / 2) 0) (profitFn ⟨0, 0⟩ (1 / 2) 100) ≤
      (findOptimalBudget ⟨0, 0⟩ (1 / 2) 0 100).profit :=
  ⟨by norm_num,
    C6_optimal_ge_min_boundary ⟨0, 0⟩ (1 / 2) 0 100 (by norm_num)
      profitFn_half_unimodal⟩

/-- A real-coefficient finite sum commutes with the coercion into
`EReal`. -/
theorem ereal_coe_sum (s : Finset ℕ) (g : ℕ → ℝ) :
    ((∑ k ∈ s, g k : ℝ) : EReal) = ∑ k ∈ s, ((g k : ℝ) : EReal) := by
  induction s using Finset.cons_induction with
  | empty => simp
  | cons a s ha ih =>
    rw [Finset.sum_cons, Finset.sum_cons, ← ih, EReal.coe_add]

/-- The ramp-up factor is always strictly positive. -/
theorem rampFactor_pos (ru m : ℕ) : 0 < rampFactor ru m := by
  unfold rampFactor
  by_cases h : m < ru
  · rw [if_pos h]
    have hnn : (0 : ℝ) ≤ (m : ℝ) / (ru : ℝ) := by positivity
    nlinarith
  · rw [if_neg h]
    norm_num

/-- With a finite required ROAS, the cumulative acting-path revenue is
the coercion of a real partial sum. -/
theorem simCumRevenue_coe (inputs : ReverseInputs)
    (scenario : ReverseScenario) (config : ROISimulationConfig) (r : ℝ)
    (hreq : scenario.requiredROAS = ((r : ℝ) : EReal)) (m : ℕ) :
    simCumRevenue inputs scenario config m =
      ((∑ k ∈ Finset.range m,
          simMonthlySpend inputs config k *
            (r * (1 + config.variancePercent / 100)) : ℝ) : EReal) := by
  unfold simCumRevenue
  rw [ereal_coe_sum]
  apply Finset.sum_congr rfl
  intro k _
  unfold simMonthlyRevenue simAdjustedROAS
  rw [hreq, ← EReal.coe_mul, ← EReal.coe_mul]

/-- C7 (counterexample): for a concrete simulation with positive
recommended budget (100) and positive required ROAS (2), the waiting
path's cumulative revenue is 0 at both month 1 and month 2, so it is not
strictly increasing across the 12 records as claimed. -/
theorem C7_counterexample :
    (0 : ℝ) < 100 ∧ (0 : EReal) < ((2 : ℝ) : EReal) ∧
    (simulateROI
        ⟨1200, 1200, 0.2,
          ⟨800, Industry.ecommerce, none, none, none, none, none, none,
            none, none, none, none⟩, none⟩
        ⟨"budgetForTarget", 100, 100, ((2 : ℝ) : EReal), 50, 0.2, 0, 0, 0,
          0, 0, true⟩
        (getDefaultConfig ROICase.expected)).ifWeWait.length = 12 ∧
    ((simulateROI
        ⟨1200, 1200, 0.2,
          ⟨800, Industry.ecommerce, none, none, none, none, none, none,
            none, none, none, none⟩, none⟩
        ⟨"budgetForTarget", 100, 100, ((2 : ℝ) : EReal), 50, 0.2, 0, 0, 0,
          0, 0, true⟩
        (getDefaultConfig ROICase.expected)).ifWeWait.getD 0
        ⟨0, "", 0, 0, 0, 0, 0⟩).cumulativeRevenue = 0 ∧
    ((simulateROI
        ⟨1200, 1200, 0.2,
          ⟨800, Industry.ecommerce, none, none, none, none, none, none,
            none, none, none, none⟩, none⟩
        ⟨"budgetForTarget", 100, 100, ((2 : ℝ) : EReal), 50, 0.2, 0, 0, 0,
          0, 0, true⟩
        (getDefaultConfig ROICase.expected)).ifWeWait.getD 1
        ⟨0, "", 0, 0, 0, 0, 0⟩).cumulativeRevenue = 0 := by
  refine ⟨by norm_num, ?_, ?_, ?_, ?_⟩
  · exact EReal.coe_pos.mpr (by norm_num)
  · simp [simulateROI]
  · simp [simulateROI, List.getD]
  · simp [simulateROI, List.getD]

/-- C7 (amended): with a positive media budget, a finite positive
required ROAS and a variance above −100 %, the acting path's cumulative
revenue is strictly increasing across the 12 monthly records, while the
waiting baseline's cumulative revenue is identically zero (the code
holds the waiting path at zero spend and zero revenue, so it is constant
rather than strictly increasing). -/
theorem C7_cumulative_revenue (inputs : ReverseInputs)
    (scenario : ReverseScenario) (config : ROISimulationConfig) (r : ℝ)
    (hreq : scenario.requiredROAS = ((r : ℝ) : EReal)) (hr : 0 < r)
    (hmb : 0 < inputs.mediaBudget) (hv : -100 < config.variancePercent) :
    (∀ i : ℕ,
      ∀ h1 : i < (simulateROI inputs scenario config).ifWeDo.length,
      ∀ h2 : i + 1 < (simulateROI inputs scenario config).ifWeDo.length,
      ((simulateROI inputs scenario config).ifWeDo.get
          ⟨i, h1⟩).cumulativeRevenue <
        ((simulateROI inputs scenario config).ifWeDo.get
          ⟨i + 1, h2⟩).cumulativeRevenue) ∧
    (∀ i : ℕ,
      ∀ h : i < (simulateROI inputs scenario config).ifWeWait.length,
      ((simulateROI inputs scenario config).ifWeWait.get
          ⟨i, h⟩).cumulativeRevenue = 0) := by
  have hfac : 0 < r * (1 + config.variancePercent / 100) := by
    have : 0 < 1 + config.variancePercent / 100 := by linarith
    positivity
  have hspend : ∀ k, 0 < simMonthlySpend inputs config k := by
    intro k
    unfold simMonthlySpend
    have := rampFactor_pos config.rampUpMonths k
    positivity
  constructor
  · intro i h1 h2
    have hlen : i + 1 < 12 := by
      simpa [simulateROI] using h2
    simp only [simulateROI, List.get_eq_getElem, List.getElem_map,
      List.getElem_range]
    rw [simCumRevenue_coe inputs scenario config r hreq,
      simCumRevenue_coe inputs scenario config r hreq]
    rw [EReal.coe_lt_coe_iff]
    rw [Finset.sum_range_succ
      (fun k => simMonthlySpend inputs config k *
        (r * (1 + config.variancePercent / 100))) (i + 1)]
    have := mul_pos (hspend (i + 1)) hfac
    linarith
  · intro i h
    simp [simulateROI]

/-- C7 (witness for the amended theorem): a concrete simulation with
media budget 1200, required ROAS 2 and the expected-case config has a
zero waiting-path cumulative revenue in its first record. -/
theorem C7_cumulative_revenue_w :
    (simulateROI
        ⟨1200, 1200, 0.2,
          ⟨800, Industry.ecommerce, none, none, none, none, none, none,
            none, none, none, none⟩, none⟩
        ⟨"budgetForTarget", 100, 100, ((2 : ℝ) : EReal), 50, 0.2, 0, 0, 0,
          0, 0, true⟩
        (getDefaultConfig ROICase.expected)).ifWeWait.length = 12 ∧
    ∀ h : 0 < (simulateROI
        ⟨1200, 1200, 0.2,
          ⟨800, Industry.ecommerce, none, none, none, none, none, none,
            none, none, none, none⟩, none⟩
        ⟨"budgetForTarget", 100, 100, ((2 : ℝ) : EReal), 50, 0.2, 0, 0, 0,
          0, 0, true⟩
        (getDefaultConfig ROICase.expected)).ifWeWait.length,
      ((simulateROI
          ⟨1200, 1200, 0.2,
            ⟨800, Industry.ecommerce, none, none, none, none, none, none,
              none, none, none, none⟩, none⟩
          ⟨"budgetForTarget", 100, 100, ((2 : ℝ) : EReal), 50, 0.2, 0, 0, 0,
            0, 0, true⟩
          (getDefaultConfig ROICase.expected)).ifWeWait.get
        ⟨0, h⟩).cumulativeRevenue = 0 :=
  ⟨by simp [simulateROI],
    fun h =>
      (C7_cumulative_revenue
          ⟨1200, 1200, 0.2,
            ⟨800, Industry.ecommerce, none, none, none, none, none, none,
              none, none, none, none⟩, none⟩
          ⟨"budgetForTarget", 100, 100, ((2 : ℝ) : EReal), 50, 0.2, 0, 0, 0,
            0, 0, true⟩
          (getDefaultConfig ROICase.expected) 2 rfl (by norm_num)
          (by norm_num) (by norm_num [getDefaultConfig])).2 0 h⟩

/-- A successful scan of `firstPosMonth` yields the first month in its
window with strictly positive value. -/
theorem firstPosMonth_some_spec (f : ℕ → EReal) :
    ∀ (fuel start m : ℕ), firstPosMonth f start fuel = some m →
      0 < f m ∧ start < m ∧ m ≤ start + fuel ∧
        ∀ k, start < k → k < m → ¬0 < f k := by
  intro fuel
  induction fuel with
  | zero =>
    intro s m h
    simp [firstPosMonth] at h
  | succ n ih =>
    intro s m h
    rw [firstPosMonth] at h
    by_cases hp : 0 < f (s + 1)
    · rw [if_pos hp] at h
      have hm : m = s + 1 := (Option.some_inj.mp h).symm
      subst hm
      exact ⟨hp, by omega, by omega, fun k hk1 hk2 => by omega⟩
    · rw [if_neg hp] at h
      obtain ⟨h1, h2, h3, h4⟩ := ih (s + 1) m h
      refine ⟨h1, by omega, by omega, fun k hk1 hk2 => ?_⟩
      by_cases hk : k = s + 1
      · rw [hk]; exact hp
      · exact h4 k (by omega) hk2

/-- A failed scan of `firstPosMonth` certifies no month in its window
has strictly positive value. -/
theorem firstPosMonth_none_spec (f : ℕ → EReal) :
    ∀ (fuel start : ℕ), firstPosMonth f start fuel = none →
      ∀ k, start < k → k ≤ start + fuel → ¬0 < f k := by
  intro fuel
  induction fuel with
  | zero =>
    intro s _ k hk1 hk2
    omega
  | succ n ih =>
    intro s h k hk1 hk2
    rw [firstPosMonth] at h
    by_cases hp : 0 < f (s + 1)
    · rw [if_pos hp] at h
      exact absurd h (by simp)
    · rw [if_neg hp] at h
      by_cases hk : k = s + 1
      · rw [hk]; exact hp
      · exact ih (s + 1) h k (by omega) (by omega)

/-- C8: the reported break-even month, when within the 12-month horizon,
is at least 1, has strictly positive cumulative acting profit, and every
earlier month has non-positive cumulative acting profit; the sentinel 13
is reported exactly when no month in the horizon has positive cumulative
profit.  The acting-path records expose exactly these cumulative
profits. -/
theorem C8_breakEvenMonth_spec (inputs : ReverseInputs)
    (scenario : ReverseScenario) (config : ROISimulationConfig) :
    ((simulateROI inputs scenario config).breakEvenMonth ≤ 12 →
      1 ≤ (simulateROI inputs scenario config).breakEvenMonth ∧
      0 < simCumProfit inputs scenario config
        (simulateROI inputs scenario config).breakEvenMonth ∧
      ∀ k, 1 ≤ k → k < (simulateROI inputs scenario config).breakEvenMonth →
        simCumProfit inputs scenario config k ≤ 0) ∧
    ((simulateROI inputs scenario config).breakEvenMonth = 13 ↔
      ∀ m, 1 ≤ m → m ≤ 12 →
        simCumProfit inputs scenario config m ≤ 0) ∧
    (∀ i : ℕ,
      ∀ h : i < (simulateROI inputs scenario config).ifWeDo.length,
      ((simulateROI inputs scenario config).ifWeDo.get
          ⟨i, h⟩).cumulativeProfit =
        simCumProfit inputs scenario config (i + 1)) := by
  have hproj : ∀ i : ℕ,
      ∀ h : i < (simulateROI inputs scenario config).ifWeDo.length,
      ((simulateROI inputs scenario config).ifWeDo.get
          ⟨i, h⟩).cumulativeProfit =
        simCumProfit inputs scenario config (i + 1) := by
    intro i h
    simp [simulateROI, List.get_eq_getElem]
  cases hfind : firstPosMonth (simCumProfit inputs scenario config) 0 12 with
  | some m =>
    have hbem : (simulateROI inputs scenario config).breakEvenMonth = m := by
      simp [simulateROI, hfind]
    obtain ⟨h1, h2, h3, h4⟩ :=
      firstPosMonth_some_spec (simCumProfit inputs scenario config) 12 0 m hfind
    rw [hbem]
    refine ⟨fun _ => ⟨by omega, h1, fun k hk1 hk2 => not_lt.mp (h4 k (by omega) hk2)⟩,
      ?_, hproj⟩
    constructor
    · intro h13
      omega
    · intro hall
      exact absurd h1 (not_lt.mpr (hall m (by omega) (by omega)))
  | none =>
    have hbem : (simulateROI inputs scenario config).breakEvenMonth = 13 := by
      simp [simulateROI, hfind]
    have hnone :=
      firstPosMonth_none_spec (simCumProfit inputs scenario config) 12 0 hfind
    rw [hbem]
    refine ⟨fun h => by omega, ?_, hproj⟩
    constructor
    · intro _ m hm1 hm2
      exact not_lt.mp (hnone m (by omega) (by omega))
    · intro _
      rfl

/-- C8 (witness): the record-field correspondence at month 1 of a
concrete simulation. -/
theorem C8_breakEvenMonth_spec_w :
    0 < (simulateROI
        ⟨1200, 1200, 0.2,
          ⟨800, Industry.ecommerce, none, none, none, none, none, none,
            none, none, none, none⟩, none⟩
        ⟨"budgetForTarget", 100, 100, ((2 : ℝ) : EReal), 50, 0.2, 0, 0, 0,
          0, 0, true⟩
        (getDefaultConfig ROICase.best)).ifWeDo.length ∧
    ∀ h : 0 < (simulateROI
        ⟨1200, 1200, 0.2,
          ⟨800, Industry.ecommerce, none, none, none, none, none, none,
            none, none, none, none⟩, none⟩
        ⟨"budgetForTarget", 100, 100, ((2 : ℝ) : EReal), 50, 0.2, 0, 0, 0,
          0, 0, true⟩
        (getDefaultConfig ROICase.best)).ifWeDo.length,
      ((simulateROI
          ⟨1200, 1200, 0.2,
            ⟨800, Industry.ecommerce, none, none, none, none, none, none,
              none, none, none, none⟩, none⟩
          ⟨"budgetForTarget", 100, 100, ((2 : ℝ) : EReal), 50, 0.2, 0, 0, 0,
            0, 0, true⟩
          (getDefaultConfig ROICase.best)).ifWeDo.get
        ⟨0, h⟩).cumulativeProfit =
      simCumProfit
        ⟨1200, 1200, 0.2,
          ⟨800, Industry.ecommerce, none, none, none, none, none, none,
            none, none, none, none⟩, none⟩
        ⟨"budgetForTarget", 100, 100, ((2 : ℝ) : EReal), 50, 0.2, 0, 0, 0,
          0, 0, true⟩
        (getDefaultConfig ROICase.best) 1 :=
  ⟨by simp [simulateROI],
    fun h =>
      (C8_breakEvenMonth_spec
          ⟨1200, 1200, 0.2,
            ⟨800, Industry.ecommerce, none, none, none, none, none, none,
              none, none, none, none⟩, none⟩
          ⟨"budgetForTarget", 100, 100, ((2 : ℝ) : EReal), 50, 0.2, 0, 0, 0,
            0, 0, true⟩
          (getDefaultConfig ROICase.best)).2.2 0 h⟩

/-- C9 (witness): contribution 500, AOV 1000, margin 0.2 of AOV gives a
well-ordered threshold pair. -/
theorem C9_thresholds_ordered_w :
    (0 : ℝ) < 500 ∧
    (computeRoasThresholds ⟨1000, 500, 500, 0, 0, 500, 0.5⟩ 1000 0.2 none
        none).breakEvenRoas ≤
      (computeRoasThresholds ⟨1000, 500, 500, 0, 0, 500, 0.5⟩ 1000 0.2 none
        none).targetRoas :=
  ⟨by norm_num,
    (C9_thresholds_ordered ⟨1000, 500, 500, 0, 0, 500, 0.5⟩ 1000 0.2 none
        none (by norm_num) (by norm_num) (by norm_num)).1⟩

end





